import Mathlib

/-!
Verification of the Google Play purchase-verification dispatcher (`google.go`).

The dispatcher `GooglePay` owns no state of its own.  Each entry point issues one
remote check through the `playstore.Client` handle, interprets the answer and, when
the purchase is valid, calls the confirmation callback supplied by the caller.

Embedding.
* The remote client and the callback are effectful collaborators.  They are modelled
  as state transformers over an arbitrary world state `σ`, so that their answers may
  depend on everything that happened before.
* Every externally visible action of an entry point (log line, remote check,
  callback invocation) is appended to a trace of `Event`s, in program order.
* A Go `error` is `Option Err` (`none` is `nil`) over an arbitrary error type `Err`.
* `gerror.Cause` is library code outside the repository; every entry point is
  parametric in it (`Cause : Err → Option Err`).  Concrete runs use `gerrorCause`, which
  follows the library: `Cause()` first, then `Unwrap()`, and nil when `Unwrap()` is nil.
* Dereferencing a nil result pointer is a run-time panic, kept as `Outcome.panicked`.
* `int32` and `int64` values are `Int`; the code only compares them with constants.
-/

set_option linter.unusedVariables false

namespace Pay

/-! ## Data model -/

/-- Go `context.Context` values.  `background` is `context.Background()`; every other
context (`gctx.New()`, `context.WithCancel`, `context.WithTimeout`, ...) is `derived`. -/
inductive Context where
  | background
  | derived (id : Nat)
  deriving DecidableEq, Repr

/-- The package-level variable `ctx = gctx.New()` (google.go, lines 12-14). -/
def ctx : Context := Context.derived 0

/-- The fields of `androidpublisher.ProductPurchase` the dispatcher reads. -/
structure ProductPurchase where
  PurchaseState : Int
  OrderId : String
  deriving DecidableEq, Repr

/-- The field of `androidpublisher.SubscriptionPurchase` the dispatcher reads. -/
structure SubscriptionPurchase where
  OrderId : String
  deriving DecidableEq, Repr

/-- Externally visible actions of an entry point, in the order they happen. -/
inductive Event where
  /-- The call `g.Log().Infof(c, format, args...)`. -/
  | log (c : Context) (format : String) (args : List String)
  /-- The call `p.c.VerifyProduct(c, package1, productID, token)`. -/
  | verifyProduct (c : Context) (package1 productID token : String)
  /-- The call `p.c.VerifySubscription(c, package1, subscriptionID, token)`. -/
  | verifySubscription (c : Context) (package1 subscriptionID token : String)
  /-- The call `cb(subscriptionID, orderId)`. -/
  | callback (subscriptionID orderId : String)
  deriving DecidableEq, Repr

/-- The interface of `playstore.Client` used by the dispatcher.  Each method returns the
Go pair `(result pointer, error)` together with the world state after the call. -/
structure Client (σ Err : Type) where
  VerifyProduct :
    Context → String → String → String → σ → (Option ProductPurchase × Option Err) × σ
  VerifySubscription :
    Context → String → String → String → σ → (Option SubscriptionPurchase × Option Err) × σ

/-- The confirmation callback `cb func(string, string) error`: a closure over the
caller's world. -/
abbrev Callback (σ Err : Type) : Type := String → String → σ → Option Err × σ

/-- The struct `GooglePay` (google.go, lines 17-19), after `Init` has returned. -/
structure GooglePay (σ Err : Type) where
  c : Client σ Err

/-- How a call of an entry point ends: it returns a Go `error` (`none` is `nil`), or
it panics on a nil pointer dereference. -/
inductive Outcome (Err : Type) where
  | returned (err : Option Err)
  | panicked
  deriving DecidableEq, Repr

/-- The observable result of running an entry point from a given world state. -/
structure Run (σ Err : Type) where
  outcome : Outcome Err
  trace : List Event
  state : σ

/-- The format string of the log line written by `VerifyPayV1` and `VerifyPayV2`. -/
def logFormat : String :=
  "VerifyPayV1: package = %v subscriptionID = %v, purchaseToken = %v"

/-- Go `len(s)` on a string: its length in bytes. -/
def len (s : String) : Nat := s.utf8ByteSize

/-! ## The entry points -/

variable {σ Err : Type}

/-- `GooglePay.VerifyPay` (google.go, lines 39-52). -/
def VerifyPay (Cause : Err → Option Err) (p : GooglePay σ Err) (userId : Int)
    (OrderId package1 subscriptionID purchaseToken : String) (cb : Callback σ Err)
    (s : σ) : Run σ Err :=
  let t0 : List Event :=
    [Event.verifyProduct Context.background package1 subscriptionID purchaseToken]
  match p.c.VerifyProduct Context.background package1 subscriptionID purchaseToken s with
  | ((_, some err), s1) => ⟨Outcome.returned (Cause err), t0, s1⟩
  | ((none, none), s1) => ⟨Outcome.panicked, t0, s1⟩
  | ((some info, none), s1) =>
    if info.PurchaseState = 0 then
      match cb subscriptionID info.OrderId s1 with
      | (some err, s2) =>
        ⟨Outcome.returned (Cause err), t0 ++ [Event.callback subscriptionID info.OrderId], s2⟩
      | (none, s2) =>
        ⟨Outcome.returned none, t0 ++ [Event.callback subscriptionID info.OrderId], s2⟩
    else
      ⟨Outcome.returned none, t0, s1⟩

/-- `GooglePay.VerifyPayV1` (google.go, lines 60-74). -/
def VerifyPayV1 (Cause : Err → Option Err) (p : GooglePay σ Err)
    (package1 subscriptionID purchaseToken : String) (cb : Callback σ Err)
    (s : σ) : Run σ Err :=
  let t0 : List Event :=
    [Event.log ctx logFormat [package1, subscriptionID, purchaseToken],
     Event.verifyProduct Context.background package1 subscriptionID purchaseToken]
  match p.c.VerifyProduct Context.background package1 subscriptionID purchaseToken s with
  | ((_, some err), s1) => ⟨Outcome.returned (Cause err), t0, s1⟩
  | ((none, none), s1) => ⟨Outcome.panicked, t0, s1⟩
  | ((some info, none), s1) =>
    if info.PurchaseState = 0 then
      match cb subscriptionID info.OrderId s1 with
      | (some err, s2) =>
        ⟨Outcome.returned (Cause err), t0 ++ [Event.callback subscriptionID info.OrderId], s2⟩
      | (none, s2) =>
        ⟨Outcome.returned none, t0 ++ [Event.callback subscriptionID info.OrderId], s2⟩
    else
      ⟨Outcome.returned none, t0, s1⟩

/-- `GooglePay.VerifyPayV2` (google.go, lines 83-109). -/
def VerifyPayV2 (Cause : Err → Option Err) (p : GooglePay σ Err) (types : Int)
    (package1 subscriptionID purchaseToken : String) (cb : Callback σ Err)
    (s : σ) : Run σ Err :=
  let t0 : List Event := [Event.log ctx logFormat [package1, subscriptionID, purchaseToken]]
  if types = 0 then
    let t1 : List Event :=
      t0 ++ [Event.verifyProduct Context.background package1 subscriptionID purchaseToken]
    match p.c.VerifyProduct Context.background package1 subscriptionID purchaseToken s with
    | ((_, some err), s1) => ⟨Outcome.returned (Cause err), t1, s1⟩
    | ((none, none), s1) => ⟨Outcome.panicked, t1, s1⟩
    | ((some info, none), s1) =>
      if info.PurchaseState = 0 then
        match cb subscriptionID info.OrderId s1 with
        | (some err, s2) =>
          ⟨Outcome.returned (Cause err),
            t1 ++ [Event.callback subscriptionID info.OrderId], s2⟩
        | (none, s2) =>
          ⟨Outcome.returned none, t1 ++ [Event.callback subscriptionID info.OrderId], s2⟩
      else
        ⟨Outcome.returned none, t1, s1⟩
  else if types = 1 then
    let t1 : List Event :=
      t0 ++ [Event.verifySubscription Context.background package1 subscriptionID purchaseToken]
    match p.c.VerifySubscription Context.background package1 subscriptionID purchaseToken s with
    | ((_, some err), s1) => ⟨Outcome.returned (Cause err), t1, s1⟩
    | ((none, none), s1) => ⟨Outcome.panicked, t1, s1⟩
    | ((some info, none), s1) =>
      if len info.OrderId ≠ 0 then
        match cb subscriptionID info.OrderId s1 with
        | (some err, s2) =>
          ⟨Outcome.returned (Cause err),
            t1 ++ [Event.callback subscriptionID info.OrderId], s2⟩
        | (none, s2) =>
          ⟨Outcome.returned none, t1 ++ [Event.callback subscriptionID info.OrderId], s2⟩
      else
        ⟨Outcome.returned none, t1, s1⟩
  else
    ⟨Outcome.returned none, t0, s⟩

/-! ## Observations on a trace -/

/-- The arguments of the callback invocations of a trace, in order. -/
def callbackCalls : List Event → List (String × String)
  | [] => []
  | Event.callback i o :: t => (i, o) :: callbackCalls t
  | _ :: t => callbackCalls t

/-- The arguments of the product checks of a trace, in order. -/
def productChecks : List Event → List (Context × String × String × String)
  | [] => []
  | Event.verifyProduct c n i t :: r => (c, n, i, t) :: productChecks r
  | _ :: r => productChecks r

/-- The arguments of the subscription checks of a trace, in order. -/
def subscriptionChecks : List Event → List (Context × String × String × String)
  | [] => []
  | Event.verifySubscription c n i t :: r => (c, n, i, t) :: subscriptionChecks r
  | _ :: r => subscriptionChecks r

/-- Go errors, by the methods `gerror.Cause` looks at.
* `plain msg`: `errors.New(msg)`, with neither `Cause()` nor `Unwrap()`.
* `gerrorNew text`: `gerror.New(text)`, a `*gerror.Error` with no inner error.
* `gerrorWrap inner text`: `gerror.Wrap(inner, text)`.
* `unwrapNil msg`: an error of another type whose `Unwrap()` returns nil, such as the
  `*googleapi.Error` built from an HTTP error reply.
* `unwrapTo msg inner`: an error of another type whose `Unwrap()` returns `inner`, such
  as `*url.Error`. -/
inductive GoError where
  | plain (msg : String)
  | gerrorNew (text : String)
  | gerrorWrap (inner : GoError) (text : String)
  | unwrapNil (msg : String)
  | unwrapTo (msg : String) (inner : GoError)
  deriving DecidableEq, Repr

/-- The library function `gerror.Cause` on a non-nil error.  An error with a `Cause()`
method (a `*gerror.Error`) answers with that method: it walks down the chain of
`*gerror.Error` values and returns the first inner error of another type, or
`errors.New(text)` at a `*gerror.Error` without inner error.  Otherwise an error with an
`Unwrap()` method answers `Cause(err.Unwrap())`, which is nil when `Unwrap()` is nil.
Any other error is returned as it is. -/
def gerrorCause : GoError → Option GoError
  | GoError.plain m => some (GoError.plain m)
  | GoError.gerrorNew t => some (GoError.plain t)
  | GoError.gerrorWrap inner _ =>
    match inner with
    | GoError.gerrorNew _ => gerrorCause inner
    | GoError.gerrorWrap _ _ => gerrorCause inner
    | _ => some inner
  | GoError.unwrapNil _ => none
  | GoError.unwrapTo _ inner => gerrorCause inner

/-- A remote client that answers every product check with `prod` and every
subscription check with `sub`, leaving the world untouched. -/
def fixedClient (prod : Option ProductPurchase × Option GoError)
    (sub : Option SubscriptionPurchase × Option GoError) : Client (List String) GoError where
  VerifyProduct := fun _ _ _ _ w => (prod, w)
  VerifySubscription := fun _ _ _ _ w => (sub, w)

/-- A dispatcher built on `fixedClient`. -/
def shop (prod : Option ProductPurchase × Option GoError)
    (sub : Option SubscriptionPurchase × Option GoError) : GooglePay (List String) GoError :=
  ⟨fixedClient prod sub⟩

/-- A callback that credits the order in the ledger (the world state) and succeeds. -/
def credit : Callback (List String) GoError :=
  fun _ orderId ledger => (none, ledger ++ [orderId])

/-- A callback that writes the order into the ledger and then fails with `e`. -/
def creditThenFail (e : GoError) : Callback (List String) GoError :=
  fun _ orderId ledger => (some e, ledger ++ [orderId])

/-- A paid one-time purchase (purchase state 0). -/
def paid : ProductPurchase := ⟨0, "GPA.3312"⟩

/-- An active subscription: its order ID is non-empty. -/
def active : SubscriptionPurchase := ⟨"GPA.1234"⟩

/-- The error of a remote check refused by the store: a `*googleapi.Error` built from
the HTTP reply, whose `Unwrap()` is nil. -/
def apiRefusal : GoError := GoError.unwrapNil "googleapi: Error 400: Invalid Value"

/-- A callback failure of a type whose `Unwrap()` is nil. -/
def ledgerRefusal : GoError := GoError.unwrapNil "ledger: account closed"

/-! ## Instrumentation: counting the calls made on the remote client -/

/-- The client `c` run next to two counters: the first counts the calls of
`VerifyProduct`, the second the calls of `VerifySubscription`. -/
def countingClient (c : Client σ Err) : Client (σ × Nat × Nat) Err where
  VerifyProduct := fun x n i t w =>
    ((c.VerifyProduct x n i t w.1).1, ((c.VerifyProduct x n i t w.1).2, w.2.1 + 1, w.2.2))
  VerifySubscription := fun x n i t w =>
    ((c.VerifySubscription x n i t w.1).1,
      ((c.VerifySubscription x n i t w.1).2, w.2.1, w.2.2 + 1))

/-- The callback `cb` run next to the two counters, which it leaves alone. -/
def liftCallback (cb : Callback σ Err) : Callback (σ × Nat × Nat) Err :=
  fun i o w => ((cb i o w.1).1, ((cb i o w.1).2, w.2))

/-! ## Auxiliary facts -/

theorem utf8ByteSize_go_eq_zero (cs : List Char) :
    String.utf8ByteSize.go cs = 0 ↔ cs = [] := by
  cases cs with
  | nil => simp [String.utf8ByteSize.go]
  | cons c cs =>
    have hc := Char.utf8Size_pos c
    simp [String.utf8ByteSize.go]
    omega

/-- Go `len(s) != 0` holds exactly for the non-empty strings. -/
theorem len_eq_zero_iff (s : String) : len s = 0 ↔ s = "" := by
  cases s with
  | mk cs =>
    simp only [len, String.utf8ByteSize, utf8ByteSize_go_eq_zero]
    constructor
    · intro h; subst h; rfl
    · intro h; exact congrArg String.data h

/-! ## One-time products -/

/-- C1. For the three one-time-product entry points (`VerifyPayV2` with `types = 0`,
`VerifyPay`, `VerifyPayV1`): when the remote product check succeeds with a result whose
purchase state is 0 and the callback returns no error, the callback is invoked exactly
once, with the caller's catalog ID and the result's order ID, and the verification
returns no error.  The one invocation is visible in the trace and in the world: the
final world is the one the callback produced from the world the product check left. -/
theorem product_paid_confirmed_once (Cause : Err → Option Err) (p : GooglePay σ Err)
    (userId : Int) (OrderId package1 subscriptionID purchaseToken : String)
    (cb : Callback σ Err) (s : σ) (info : ProductPurchase)
    (hremote : (p.c.VerifyProduct Context.background package1 subscriptionID
        purchaseToken s).1 = (some info, none))
    (hstate : info.PurchaseState = 0)
    (hcb : (cb subscriptionID info.OrderId (p.c.VerifyProduct Context.background package1
        subscriptionID purchaseToken s).2).1 = none) :
    (callbackCalls (VerifyPayV2 Cause p 0 package1 subscriptionID purchaseToken cb s).trace
        = [(subscriptionID, info.OrderId)]
      ∧ (VerifyPayV2 Cause p 0 package1 subscriptionID purchaseToken cb s).outcome
        = Outcome.returned none
      ∧ (VerifyPayV2 Cause p 0 package1 subscriptionID purchaseToken cb s).state
        = (cb subscriptionID info.OrderId (p.c.VerifyProduct Context.background package1
            subscriptionID purchaseToken s).2).2)
    ∧ (callbackCalls (VerifyPay Cause p userId OrderId package1 subscriptionID purchaseToken
          cb s).trace = [(subscriptionID, info.OrderId)]
      ∧ (VerifyPay Cause p userId OrderId package1 subscriptionID purchaseToken cb s).outcome
        = Outcome.returned none
      ∧ (VerifyPay Cause p userId OrderId package1 subscriptionID purchaseToken cb s).state
        = (cb subscriptionID info.OrderId (p.c.VerifyProduct Context.background package1
            subscriptionID purchaseToken s).2).2)
    ∧ (callbackCalls (VerifyPayV1 Cause p package1 subscriptionID purchaseToken cb s).trace
        = [(subscriptionID, info.OrderId)]
      ∧ (VerifyPayV1 Cause p package1 subscriptionID purchaseToken cb s).outcome
        = Outcome.returned none
      ∧ (VerifyPayV1 Cause p package1 subscriptionID purchaseToken cb s).state
        = (cb subscriptionID info.OrderId (p.c.VerifyProduct Context.background package1
            subscriptionID purchaseToken s).2).2) := by
  rcases hr : p.c.VerifyProduct Context.background package1 subscriptionID purchaseToken s
    with ⟨⟨i, e⟩, s1⟩
  rw [hr] at hremote hcb
  simp only [Prod.mk.injEq] at hremote
  obtain ⟨rfl, rfl⟩ := hremote
  rcases hc : cb subscriptionID info.OrderId s1 with ⟨ce, s2⟩
  rw [hc] at hcb
  simp only at hcb
  subst hcb
  simp [VerifyPayV2, VerifyPay, VerifyPayV1, hr, hc, hstate, callbackCalls]

/-- Evaluation of C1 on a paid purchase: one callback call with the catalog ID
`coins_100` and the order ID `GPA.3312`, a nil result, and the order credited once in
the ledger, for each entry point. -/
theorem product_paid_confirmed_once_witness :
    paid.PurchaseState = 0
    ∧ ((callbackCalls (VerifyPayV2 gerrorCause (shop (some paid, none) (none, none)) 0
          "com.app.x" "coins_100" "tok123" credit []).trace = [("coins_100", "GPA.3312")]
        ∧ (VerifyPayV2 gerrorCause (shop (some paid, none) (none, none)) 0
          "com.app.x" "coins_100" "tok123" credit []).outcome = Outcome.returned none
        ∧ (VerifyPayV2 gerrorCause (shop (some paid, none) (none, none)) 0
          "com.app.x" "coins_100" "tok123" credit []).state = ["GPA.3312"])
      ∧ (callbackCalls (VerifyPay gerrorCause (shop (some paid, none) (none, none)) 42
          "local-7" "com.app.x" "coins_100" "tok123" credit []).trace
          = [("coins_100", "GPA.3312")]
        ∧ (VerifyPay gerrorCause (shop (some paid, none) (none, none)) 42 "local-7"
          "com.app.x" "coins_100" "tok123" credit []).outcome = Outcome.returned none
        ∧ (VerifyPay gerrorCause (shop (some paid, none) (none, none)) 42 "local-7"
          "com.app.x" "coins_100" "tok123" credit []).state = ["GPA.3312"])
      ∧ (callbackCalls (VerifyPayV1 gerrorCause (shop (some paid, none) (none, none))
          "com.app.x" "coins_100" "tok123" credit []).trace = [("coins_100", "GPA.3312")]
        ∧ (VerifyPayV1 gerrorCause (shop (some paid, none) (none, none))
          "com.app.x" "coins_100" "tok123" credit []).outcome = Outcome.returned none
        ∧ (VerifyPayV1 gerrorCause (shop (some paid, none) (none, none))
          "com.app.x" "coins_100" "tok123" credit []).state = ["GPA.3312"])) :=
  ⟨rfl, product_paid_confirmed_once gerrorCause (shop (some paid, none) (none, none)) 42
    "local-7" "com.app.x" "coins_100" "tok123" credit [] paid rfl rfl rfl⟩

/-- C3. For a subscription verification (`VerifyPayV2` with `types = 1`): when the
remote subscription check succeeds with a non-empty order ID and the callback returns
no error, the callback is invoked exactly once, with the caller's subscription ID and
that order ID, and the verification returns no error.  The one invocation is visible in
the trace and in the world: the final world is the one the callback produced from the
world the subscription check left. -/
theorem subscription_active_confirmed_once (Cause : Err → Option Err) (p : GooglePay σ Err)
    (package1 subscriptionID purchaseToken : String)
    (cb : Callback σ Err) (s : σ) (info : SubscriptionPurchase)
    (hremote : (p.c.VerifySubscription Context.background package1 subscriptionID
        purchaseToken s).1 = (some info, none))
    (horder : info.OrderId ≠ "")
    (hcb : (cb subscriptionID info.OrderId (p.c.VerifySubscription Context.background
        package1 subscriptionID purchaseToken s).2).1 = none) :
    callbackCalls (VerifyPayV2 Cause p 1 package1 subscriptionID purchaseToken cb s).trace
        = [(subscriptionID, info.OrderId)]
      ∧ (VerifyPayV2 Cause p 1 package1 subscriptionID purchaseToken cb s).outcome
        = Outcome.returned none
      ∧ (VerifyPayV2 Cause p 1 package1 subscriptionID purchaseToken cb s).state
        = (cb subscriptionID info.OrderId (p.c.VerifySubscription Context.background
            package1 subscriptionID purchaseToken s).2).2 := by
  rcases hr : p.c.VerifySubscription Context.background package1 subscriptionID
    purchaseToken s with ⟨⟨i, e⟩, s1⟩
  rw [hr] at hremote hcb
  simp only [Prod.mk.injEq] at hremote
  obtain ⟨rfl, rfl⟩ := hremote
  rcases hc : cb subscriptionID info.OrderId s1 with ⟨ce, s2⟩
  rw [hc] at hcb
  simp only at hcb
  subst hcb
  have hlen : len info.OrderId ≠ 0 := fun h => horder ((len_eq_zero_iff _).1 h)
  simp [VerifyPayV2, hr, hc, hlen, callbackCalls]

/-- The scenario of C3: namespace `com.app.x`, subscription `sub_gold`, token `tok123`,
remote order ID `GPA.1234` give one callback call with `(sub_gold, GPA.1234)`, a nil
result, and the order credited once in the ledger. -/
theorem subscription_active_confirmed_once_witness :
    active.OrderId = "GPA.1234"
    ∧ callbackCalls (VerifyPayV2 gerrorCause (shop (none, none) (some active, none)) 1
        "com.app.x" "sub_gold" "tok123" credit []).trace = [("sub_gold", "GPA.1234")]
    ∧ (VerifyPayV2 gerrorCause (shop (none, none) (some active, none)) 1
        "com.app.x" "sub_gold" "tok123" credit []).outcome = Outcome.returned none
    ∧ (VerifyPayV2 gerrorCause (shop (none, none) (some active, none)) 1
        "com.app.x" "sub_gold" "tok123" credit []).state = ["GPA.1234"] :=
  ⟨rfl, subscription_active_confirmed_once gerrorCause (shop (none, none) (some active, none))
    "com.app.x" "sub_gold" "tok123" credit [] active rfl (by decide) rfl⟩

/-- What every entry point does with a remote error, for any `gerror.Cause`: when the
remote check it issues returns an error `e`, the entry point returns `gerror.Cause(e)`,
it does not invoke the callback, and it leaves the world as the remote check left it. -/
theorem remote_error_outcome (Cause : Err → Option Err) (p : GooglePay σ Err)
    (userId : Int) (OrderId package1 subscriptionID purchaseToken : String)
    (cb : Callback σ Err) (s : σ) (e : Err) :
    ((p.c.VerifyProduct Context.background package1 subscriptionID purchaseToken s).1.2
        = some e →
      ((VerifyPayV2 Cause p 0 package1 subscriptionID purchaseToken cb s).outcome
          = Outcome.returned (Cause e)
        ∧ callbackCalls (VerifyPayV2 Cause p 0 package1 subscriptionID purchaseToken
            cb s).trace = []
        ∧ (VerifyPayV2 Cause p 0 package1 subscriptionID purchaseToken cb s).state
          = (p.c.VerifyProduct Context.background package1 subscriptionID purchaseToken s).2)
      ∧ ((VerifyPay Cause p userId OrderId package1 subscriptionID purchaseToken cb s).outcome
          = Outcome.returned (Cause e)
        ∧ callbackCalls (VerifyPay Cause p userId OrderId package1 subscriptionID
            purchaseToken cb s).trace = []
        ∧ (VerifyPay Cause p userId OrderId package1 subscriptionID purchaseToken cb s).state
          = (p.c.VerifyProduct Context.background package1 subscriptionID purchaseToken s).2)
      ∧ ((VerifyPayV1 Cause p package1 subscriptionID purchaseToken cb s).outcome
          = Outcome.returned (Cause e)
        ∧ callbackCalls (VerifyPayV1 Cause p package1 subscriptionID purchaseToken
            cb s).trace = []
        ∧ (VerifyPayV1 Cause p package1 subscriptionID purchaseToken cb s).state
          = (p.c.VerifyProduct Context.background package1 subscriptionID purchaseToken s).2))
    ∧ ((p.c.VerifySubscription Context.background package1 subscriptionID
          purchaseToken s).1.2 = some e →
      (VerifyPayV2 Cause p 1 package1 subscriptionID purchaseToken cb s).outcome
          = Outcome.returned (Cause e)
        ∧ callbackCalls (VerifyPayV2 Cause p 1 package1 subscriptionID purchaseToken
            cb s).trace = []
        ∧ (VerifyPayV2 Cause p 1 package1 subscriptionID purchaseToken cb s).state
          = (p.c.VerifySubscription Context.background package1 subscriptionID
              purchaseToken s).2) := by
  constructor
  · intro h
    rcases hr : p.c.VerifyProduct Context.background package1 subscriptionID purchaseToken s
      with ⟨⟨i, e0⟩, s1⟩
    rw [hr] at h
    simp only at h
    subst h
    simp [VerifyPayV2, VerifyPay, VerifyPayV1, hr, callbackCalls]
  · intro h
    rcases hr : p.c.VerifySubscription Context.background package1 subscriptionID
      purchaseToken s with ⟨⟨i, e0⟩, s1⟩
    rw [hr] at h
    simp only at h
    subst h
    simp [VerifyPayV2, hr, callbackCalls]

/-- What every entry point does with a callback error, for any `gerror.Cause`: when
the remote check succeeds with a valid result (purchase state 0 for a product, non-empty
order ID for a subscription) and the callback returns an error `e`, the entry point
returns `gerror.Cause(e)` after one callback invocation: one callback event, and the
final world is the one that single invocation produced. -/
theorem callback_error_outcome (Cause : Err → Option Err) (p : GooglePay σ Err)
    (userId : Int) (OrderId package1 subscriptionID purchaseToken : String)
    (cb : Callback σ Err) (s : σ) (e : Err) :
    (∀ info : ProductPurchase,
      (p.c.VerifyProduct Context.background package1 subscriptionID purchaseToken s).1
          = (some info, none) →
      info.PurchaseState = 0 →
      (cb subscriptionID info.OrderId (p.c.VerifyProduct Context.background package1
          subscriptionID purchaseToken s).2).1 = some e →
      ((VerifyPayV2 Cause p 0 package1 subscriptionID purchaseToken cb s).outcome
          = Outcome.returned (Cause e)
        ∧ callbackCalls (VerifyPayV2 Cause p 0 package1 subscriptionID purchaseToken
            cb s).trace = [(subscriptionID, info.OrderId)]
        ∧ (VerifyPayV2 Cause p 0 package1 subscriptionID purchaseToken cb s).state
          = (cb subscriptionID info.OrderId (p.c.VerifyProduct Context.background package1
              subscriptionID purchaseToken s).2).2)
      ∧ ((VerifyPay Cause p userId OrderId package1 subscriptionID purchaseToken cb s).outcome
          = Outcome.returned (Cause e)
        ∧ callbackCalls (VerifyPay Cause p userId OrderId package1 subscriptionID
            purchaseToken cb s).trace = [(subscriptionID, info.OrderId)]
        ∧ (VerifyPay Cause p userId OrderId package1 subscriptionID purchaseToken cb s).state
          = (cb subscriptionID info.OrderId (p.c.VerifyProduct Context.background package1
              subscriptionID purchaseToken s).2).2)
      ∧ ((VerifyPayV1 Cause p package1 subscriptionID purchaseToken cb s).outcome
          = Outcome.returned (Cause e)
        ∧ callbackCalls (VerifyPayV1 Cause p package1 subscriptionID purchaseToken
            cb s).trace = [(subscriptionID, info.OrderId)]
        ∧ (VerifyPayV1 Cause p package1 subscriptionID purchaseToken cb s).state
          = (cb subscriptionID info.OrderId (p.c.VerifyProduct Context.background package1
              subscriptionID purchaseToken s).2).2))
    ∧ (∀ info : SubscriptionPurchase,
      (p.c.VerifySubscription Context.background package1 subscriptionID purchaseToken s).1
          = (some info, none) →
      info.OrderId ≠ "" →
      (cb subscriptionID info.OrderId (p.c.VerifySubscription Context.background package1
          subscriptionID purchaseToken s).2).1 = some e →
      (VerifyPayV2 Cause p 1 package1 subscriptionID purchaseToken cb s).outcome
          = Outcome.returned (Cause e)
        ∧ callbackCalls (VerifyPayV2 Cause p 1 package1 subscriptionID purchaseToken
            cb s).trace = [(subscriptionID, info.OrderId)]
        ∧ (VerifyPayV2 Cause p 1 package1 subscriptionID purchaseToken cb s).state
          = (cb subscriptionID info.OrderId (p.c.VerifySubscription Context.background
              package1 subscriptionID purchaseToken s).2).2) := by
  constructor
  · intro info hremote hstate hcb
    rcases hr : p.c.VerifyProduct Context.background package1 subscriptionID purchaseToken s
      with ⟨⟨i, e0⟩, s1⟩
    rw [hr] at hremote hcb
    simp only [Prod.mk.injEq] at hremote
    obtain ⟨rfl, rfl⟩ := hremote
    rcases hc : cb subscriptionID info.OrderId s1 with ⟨ce, s2⟩
    rw [hc] at hcb
    simp only at hcb
    subst hcb
    simp [VerifyPayV2, VerifyPay, VerifyPayV1, hr, hc, hstate, callbackCalls]
  · intro info hremote horder hcb
    rcases hr : p.c.VerifySubscription Context.background package1 subscriptionID
      purchaseToken s with ⟨⟨i, e0⟩, s1⟩
    rw [hr] at hremote hcb
    simp only [Prod.mk.injEq] at hremote
    obtain ⟨rfl, rfl⟩ := hremote
    rcases hc : cb subscriptionID info.OrderId s1 with ⟨ce, s2⟩
    rw [hc] at hcb
    simp only at hcb
    subst hcb
    have hlen : len info.OrderId ≠ 0 := fun h => horder ((len_eq_zero_iff _).1 h)
    simp [VerifyPayV2, hr, hc, hlen, callbackCalls]

/-- C5 fails on the code. The remote check returns the non-nil error `apiRefusal` (a
`*googleapi.Error`, whose `Unwrap()` is nil) and no result.  C5 says the verification
returns that error; every entry point returns nil instead, that is success, because
`gerror.Cause(apiRefusal)` is nil.  The callback is not invoked, as C5 says. -/
theorem remote_error_reported_as_success :
    (((shop (none, some apiRefusal) (none, none)).c.VerifyProduct Context.background
          "com.app.x" "coins_100" "tok123" []).1.2 = some apiRefusal
      ∧ ((VerifyPayV2 gerrorCause (shop (none, some apiRefusal) (none, none)) 0
            "com.app.x" "coins_100" "tok123" credit []).outcome = Outcome.returned none
        ∧ callbackCalls (VerifyPayV2 gerrorCause (shop (none, some apiRefusal) (none, none)) 0
            "com.app.x" "coins_100" "tok123" credit []).trace = [])
      ∧ ((VerifyPay gerrorCause (shop (none, some apiRefusal) (none, none)) 42 "local-7"
            "com.app.x" "coins_100" "tok123" credit []).outcome = Outcome.returned none
        ∧ callbackCalls (VerifyPay gerrorCause (shop (none, some apiRefusal) (none, none)) 42
            "local-7" "com.app.x" "coins_100" "tok123" credit []).trace = [])
      ∧ ((VerifyPayV1 gerrorCause (shop (none, some apiRefusal) (none, none))
            "com.app.x" "coins_100" "tok123" credit []).outcome = Outcome.returned none
        ∧ callbackCalls (VerifyPayV1 gerrorCause (shop (none, some apiRefusal) (none, none))
            "com.app.x" "coins_100" "tok123" credit []).trace = []))
    ∧ (((shop (none, none) (none, some apiRefusal)).c.VerifySubscription Context.background
          "com.app.x" "sub_gold" "tok123" []).1.2 = some apiRefusal
      ∧ (VerifyPayV2 gerrorCause (shop (none, none) (none, some apiRefusal)) 1
            "com.app.x" "sub_gold" "tok123" credit []).outcome = Outcome.returned none
      ∧ callbackCalls (VerifyPayV2 gerrorCause (shop (none, none) (none, some apiRefusal)) 1
            "com.app.x" "sub_gold" "tok123" credit []).trace = []) := by
  decide

/-- C6 fails on the code. The remote check reports a valid purchase and the callback
returns the non-nil error `ledgerRefusal`, whose `Unwrap()` is nil.  C6 says the
verification returns that error, never success; every entry point returns nil instead,
because `gerror.Cause(ledgerRefusal)` is nil.  The callback has been invoked exactly
once, as C6 says: one callback event, and one entry written in the ledger. -/
theorem callback_error_reported_as_success :
    ((creditThenFail ledgerRefusal "coins_100" paid.OrderId []).1 = some ledgerRefusal
      ∧ ((VerifyPayV2 gerrorCause (shop (some paid, none) (none, none)) 0
            "com.app.x" "coins_100" "tok123" (creditThenFail ledgerRefusal) []).outcome
            = Outcome.returned none
        ∧ callbackCalls (VerifyPayV2 gerrorCause (shop (some paid, none) (none, none)) 0
            "com.app.x" "coins_100" "tok123" (creditThenFail ledgerRefusal) []).trace
            = [("coins_100", "GPA.3312")]
        ∧ (VerifyPayV2 gerrorCause (shop (some paid, none) (none, none)) 0
            "com.app.x" "coins_100" "tok123" (creditThenFail ledgerRefusal) []).state
            = ["GPA.3312"])
      ∧ ((VerifyPay gerrorCause (shop (some paid, none) (none, none)) 42 "local-7"
            "com.app.x" "coins_100" "tok123" (creditThenFail ledgerRefusal) []).outcome
            = Outcome.returned none
        ∧ callbackCalls (VerifyPay gerrorCause (shop (some paid, none) (none, none)) 42
            "local-7" "com.app.x" "coins_100" "tok123" (creditThenFail ledgerRefusal) []).trace
            = [("coins_100", "GPA.3312")]
        ∧ (VerifyPay gerrorCause (shop (some paid, none) (none, none)) 42 "local-7"
            "com.app.x" "coins_100" "tok123" (creditThenFail ledgerRefusal) []).state
            = ["GPA.3312"])
      ∧ ((VerifyPayV1 gerrorCause (shop (some paid, none) (none, none))
            "com.app.x" "coins_100" "tok123" (creditThenFail ledgerRefusal) []).outcome
            = Outcome.returned none
        ∧ callbackCalls (VerifyPayV1 gerrorCause (shop (some paid, none) (none, none))
            "com.app.x" "coins_100" "tok123" (creditThenFail ledgerRefusal) []).trace
            = [("coins_100", "GPA.3312")]
        ∧ (VerifyPayV1 gerrorCause (shop (some paid, none) (none, none))
            "com.app.x" "coins_100" "tok123" (creditThenFail ledgerRefusal) []).state
            = ["GPA.3312"]))
    ∧ ((creditThenFail ledgerRefusal "sub_gold" active.OrderId []).1 = some ledgerRefusal
      ∧ (VerifyPayV2 gerrorCause (shop (none, none) (some active, none)) 1
            "com.app.x" "sub_gold" "tok123" (creditThenFail ledgerRefusal) []).outcome
            = Outcome.returned none
      ∧ callbackCalls (VerifyPayV2 gerrorCause (shop (none, none) (some active, none)) 1
            "com.app.x" "sub_gold" "tok123" (creditThenFail ledgerRefusal) []).trace
            = [("sub_gold", "GPA.1234")]
      ∧ (VerifyPayV2 gerrorCause (shop (none, none) (some active, none)) 1
            "com.app.x" "sub_gold" "tok123" (creditThenFail ledgerRefusal) []).state
            = ["GPA.1234"]) := by
  decide

/-! ## Remote checks issued by `VerifyPayV2` -/

/-- C7. Every call of `VerifyPayV2` issues at most one remote check in total: with
`types = 0` exactly one product check and no subscription check, with `types = 1`
exactly one subscription check and no product check, whatever the remote results and
the callback are.  This is stated on the trace and on the client itself: run on any
client instrumented with call counters, `VerifyPayV2` leaves the counters at `(1, 0)`
for `types = 0`, at `(0, 1)` for `types = 1` and at `(0, 0)` otherwise. -/
theorem verifyPayV2_single_remote_check (Cause : Err → Option Err) (p : GooglePay σ Err)
    (types : Int) (package1 subscriptionID purchaseToken : String)
    (cb : Callback σ Err) (s : σ) :
    (productChecks (VerifyPayV2 Cause p types package1 subscriptionID purchaseToken
          cb s).trace).length
        + (subscriptionChecks (VerifyPayV2 Cause p types package1 subscriptionID purchaseToken
          cb s).trace).length ≤ 1
    ∧ productChecks (VerifyPayV2 Cause p types package1 subscriptionID purchaseToken
          cb s).trace
        = (if types = 0 then [(Context.background, package1, subscriptionID, purchaseToken)]
           else [])
    ∧ subscriptionChecks (VerifyPayV2 Cause p types package1 subscriptionID purchaseToken
          cb s).trace
        = (if types = 1 then [(Context.background, package1, subscriptionID, purchaseToken)]
           else [])
    ∧ (VerifyPayV2 Cause (GooglePay.mk (countingClient p.c)) types package1 subscriptionID
          purchaseToken (liftCallback cb) (s, 0, 0)).state.2
        = (if types = 0 then 1 else 0, if types = 1 then 1 else 0) := by
  by_cases h0 : types = 0
  · subst h0
    rcases hr : p.c.VerifyProduct Context.background package1 subscriptionID purchaseToken s
      with ⟨⟨i, e⟩, s1⟩
    cases e with
    | some err =>
      simp [VerifyPayV2, hr, productChecks, subscriptionChecks, countingClient, liftCallback]
    | none =>
      cases i with
      | none =>
        simp [VerifyPayV2, hr, productChecks, subscriptionChecks, countingClient,
          liftCallback]
      | some info =>
        by_cases hs : info.PurchaseState = 0
        · rcases hc : cb subscriptionID info.OrderId s1 with ⟨ce, s2⟩
          cases ce <;>
            simp [VerifyPayV2, hr, hc, hs, productChecks, subscriptionChecks, countingClient,
              liftCallback]
        · simp [VerifyPayV2, hr, hs, productChecks, subscriptionChecks, countingClient,
            liftCallback]
  · by_cases h1 : types = 1
    · subst h1
      rcases hr : p.c.VerifySubscription Context.background package1 subscriptionID
        purchaseToken s with ⟨⟨i, e⟩, s1⟩
      cases e with
      | some err =>
        simp [VerifyPayV2, hr, productChecks, subscriptionChecks, countingClient,
          liftCallback]
      | none =>
        cases i with
        | none =>
          simp [VerifyPayV2, hr, productChecks, subscriptionChecks, countingClient,
            liftCallback]
        | some info =>
          by_cases hs : len info.OrderId = 0
          · simp [VerifyPayV2, hr, hs, productChecks, subscriptionChecks, countingClient,
              liftCallback]
          · rcases hc : cb subscriptionID info.OrderId s1 with ⟨ce, s2⟩
            cases ce <;>
              simp [VerifyPayV2, hr, hc, hs, productChecks, subscriptionChecks,
                countingClient, liftCallback]
    · simp [VerifyPayV2, h0, h1, productChecks, subscriptionChecks]

/-- C8. For every `types` value other than 0 and 1, `VerifyPayV2` returns no error,
never invokes the callback, issues no remote check and leaves the world as it found
it. -/
theorem verifyPayV2_unknown_type_noop (Cause : Err → Option Err) (p : GooglePay σ Err)
    (types : Int) (package1 subscriptionID purchaseToken : String)
    (cb : Callback σ Err) (s : σ) (h0 : types ≠ 0) (h1 : types ≠ 1) :
    (VerifyPayV2 Cause p types package1 subscriptionID purchaseToken cb s).outcome
        = Outcome.returned none
    ∧ callbackCalls (VerifyPayV2 Cause p types package1 subscriptionID purchaseToken
        cb s).trace = []
    ∧ productChecks (VerifyPayV2 Cause p types package1 subscriptionID purchaseToken
        cb s).trace = []
    ∧ subscriptionChecks (VerifyPayV2 Cause p types package1 subscriptionID purchaseToken
        cb s).trace = []
    ∧ (VerifyPayV2 Cause p types package1 subscriptionID purchaseToken cb s).state = s := by
  simp [VerifyPayV2, h0, h1, callbackCalls, productChecks, subscriptionChecks]

/-- Evaluation of C8 at the negative selector `-3`, on a client that would report a paid
purchase and an active subscription. -/
theorem verifyPayV2_unknown_type_noop_witness :
    ((-3 : Int) ≠ 0 ∧ (-3 : Int) ≠ 1)
    ∧ (VerifyPayV2 gerrorCause (shop (some paid, none) (some active, none)) (-3)
        "com.app.x" "coins_100" "tok123" credit []).outcome = Outcome.returned none
    ∧ callbackCalls (VerifyPayV2 gerrorCause (shop (some paid, none) (some active, none)) (-3)
        "com.app.x" "coins_100" "tok123" credit []).trace = []
    ∧ productChecks (VerifyPayV2 gerrorCause (shop (some paid, none) (some active, none)) (-3)
        "com.app.x" "coins_100" "tok123" credit []).trace = []
    ∧ subscriptionChecks (VerifyPayV2 gerrorCause (shop (some paid, none) (some active, none))
        (-3) "com.app.x" "coins_100" "tok123" credit []).trace = []
    ∧ (VerifyPayV2 gerrorCause (shop (some paid, none) (some active, none)) (-3)
        "com.app.x" "coins_100" "tok123" credit []).state = [] :=
  ⟨by decide, verifyPayV2_unknown_type_noop gerrorCause
    (shop (some paid, none) (some active, none)) (-3) "com.app.x" "coins_100" "tok123"
    credit [] (by decide) (by decide)⟩

/-! ## The context handed to the remote client -/

/-- C10. `VerifyPay`, `VerifyPayV1` and `VerifyPayV2` with `types = 0` return the same
error value, issue the same single product check (and no subscription check), make the
same callback invocations and leave the same world, for every input; the run of
`VerifyPay` does not depend on its `userId` and `OrderId` arguments. -/
theorem product_entry_points_agree (Cause : Err → Option Err) (p : GooglePay σ Err)
    (userId userId2 : Int) (OrderId OrderId2 package1 subscriptionID purchaseToken : String)
    (cb : Callback σ Err) (s : σ) :
    ((VerifyPay Cause p userId OrderId package1 subscriptionID purchaseToken cb s).outcome
        = (VerifyPayV1 Cause p package1 subscriptionID purchaseToken cb s).outcome
      ∧ (VerifyPayV1 Cause p package1 subscriptionID purchaseToken cb s).outcome
        = (VerifyPayV2 Cause p 0 package1 subscriptionID purchaseToken cb s).outcome)
    ∧ (productChecks (VerifyPay Cause p userId OrderId package1 subscriptionID purchaseToken
          cb s).trace = [(Context.background, package1, subscriptionID, purchaseToken)]
      ∧ productChecks (VerifyPayV1 Cause p package1 subscriptionID purchaseToken cb s).trace
        = [(Context.background, package1, subscriptionID, purchaseToken)]
      ∧ productChecks (VerifyPayV2 Cause p 0 package1 subscriptionID purchaseToken cb s).trace
        = [(Context.background, package1, subscriptionID, purchaseToken)])
    ∧ (subscriptionChecks (VerifyPay Cause p userId OrderId package1 subscriptionID
          purchaseToken cb s).trace = []
      ∧ subscriptionChecks (VerifyPayV1 Cause p package1 subscriptionID purchaseToken
          cb s).trace = []
      ∧ subscriptionChecks (VerifyPayV2 Cause p 0 package1 subscriptionID purchaseToken
          cb s).trace = [])
    ∧ (callbackCalls (VerifyPay Cause p userId OrderId package1 subscriptionID purchaseToken
          cb s).trace
        = callbackCalls (VerifyPayV1 Cause p package1 subscriptionID purchaseToken cb s).trace
      ∧ callbackCalls (VerifyPayV1 Cause p package1 subscriptionID purchaseToken cb s).trace
        = callbackCalls (VerifyPayV2 Cause p 0 package1 subscriptionID purchaseToken
            cb s).trace)
    ∧ ((VerifyPay Cause p userId OrderId package1 subscriptionID purchaseToken cb s).state
        = (VerifyPayV1 Cause p package1 subscriptionID purchaseToken cb s).state
      ∧ (VerifyPayV1 Cause p package1 subscriptionID purchaseToken cb s).state
        = (VerifyPayV2 Cause p 0 package1 subscriptionID purchaseToken cb s).state)
    ∧ VerifyPay Cause p userId OrderId package1 subscriptionID purchaseToken cb s
        = VerifyPay Cause p userId2 OrderId2 package1 subscriptionID purchaseToken cb s := by
  rcases hr : p.c.VerifyProduct Context.background package1 subscriptionID purchaseToken s
    with ⟨⟨i, e⟩, s1⟩
  cases e with
  | some err =>
    simp [VerifyPay, VerifyPayV1, VerifyPayV2, hr, productChecks, subscriptionChecks,
      callbackCalls]
  | none =>
    cases i with
    | none =>
      simp [VerifyPay, VerifyPayV1, VerifyPayV2, hr, productChecks, subscriptionChecks,
        callbackCalls]
    | some info =>
      by_cases hs : info.PurchaseState = 0
      · rcases hc : cb subscriptionID info.OrderId s1 with ⟨ce, s2⟩
        cases ce <;>
          simp [VerifyPay, VerifyPayV1, VerifyPayV2, hr, hc, hs, productChecks,
            subscriptionChecks, callbackCalls]
      · simp [VerifyPay, VerifyPayV1, VerifyPayV2, hr, hs, productChecks,
          subscriptionChecks, callbackCalls]

end Pay
